import Mathlib

/-!
Shallow embedding of `lib/ArtifactoryAPI.js` (artifactory-api), an Artifactory
REST client.  Every operation of the client is modelled as a pure function
from the client handle, the call arguments and an environment (the transport
results the callbacks would receive, plus local file-system facts) to the
trace of HTTP requests the operation issues and the settlement of the
returned promise.  JavaScript strings are Lean `String`s (character lists via
`String.data` where last/first-character tests matter), JSON values are the
`JsValue` inductive, and an exception thrown inside an asynchronous callback
— after which the promise can never settle — is the `Outcome.crashed`
constructor.
-/

namespace ArtifactorySpec

/-- A parsed JSON-like JavaScript value, as passed to `resolve`/`reject`.
`errObj` is the structured error object
`\x7bstatusCode, statusMessage, response, url\x7d` that the delete, create-folder
and move callbacks build on an unexpected status. -/
inductive JsValue where
  | str (s : String)
  | num (n : Int)
  | bool (b : Bool)
  | null
  | arr (elems : List JsValue)
  | obj (fields : List (String × JsValue))
  | errObj (statusCode : Int) (statusMessage : String) (response : JsValue) (url : String)

/-- JavaScript member access `v.k`: defined only on objects that carry the
field; anything else yields `undefined`, modelled as `none`. -/
def JsValue.getField : JsValue → String → Option JsValue
  | .obj fields, k => fields.lookup k
  | _, _ => none

/-- JavaScript truthiness of a value. -/
def JsValue.truthy : JsValue → Bool
  | .bool b => b
  | .str s => !s.isEmpty
  | .num n => decide (n ≠ 0)
  | .null => false
  | _ => true

/-- JavaScript strict equality `s === v` between a string and a possibly
undefined value: true exactly when the value is that same string. -/
def jsStrictEqString (s : String) : Option JsValue → Bool
  | some (.str t) => s == t
  | _ => false

/-- An HTTP response as seen by a `request`-library callback.  The body is
kept in parsed form: `none` models an empty/absent body (JavaScript falsy),
`some v` a body whose `JSON.parse` is `v`. -/
structure Response where
  statusCode : Int
  statusMessage : String
  body : Option JsValue

/-- The transport result delivered to a `request` callback `(error, response)`:
either a transport-level failure (`error` set, `response` undefined — no HTTP
response was received), or a received response (`error` null).  The `Error`
object is represented by its message string. -/
inductive NetResult where
  | err (message : String)
  | resp (r : Response)

/-- How the promise returned by an operation settles.  `crashed` records an
exception thrown inside a callback: the deferred is never resolved nor
rejected, and the exception escapes to the event loop. -/
inductive Outcome where
  | resolved (v : JsValue)
  | rejected (v : JsValue)
  | crashed (msg : String)

/-- `response.body ? JSON.parse(response.body) : '<empty>'` — the body when
present, the literal placeholder otherwise. -/
def bodyOrEmpty (r : Response) : JsValue :=
  match r.body with
  | some v => v
  | none => .str "<empty>"

/-- `response.body ? JSON.parse(response.body) : d` for a default value `d`
(used by `createFolder` with "Created" and `_moveItem` with "Moved"). -/
def bodyOrDefault (r : Response) (d : String) : JsValue :=
  match r.body with
  | some v => v
  | none => .str d

/-- The client handle built by the constructor
`function ArtifactoryAPI(url, basicHttpAuth)`: it stores the base URL and the
pre-encoded basic-auth credentials and nothing else; no other assignment to
`this.url_` or `this.basicHttpAuth_` occurs anywhere in the source, so the
handle is embedded as an immutable structure. -/
structure ArtifactoryAPI where
  url_ : String
  basicHttpAuth_ : String

/-- The options object built by `getRequestOptions`. -/
structure RequestOptions where
  url : String
  authorization : String
  strictSSL : Bool
  qs : Option (List (String × String))

/-- HTTP method of an outgoing request. -/
inductive Method where
  | get | head | put | post | del
deriving DecidableEq

/-- One outgoing HTTP request: the method used and the options passed to the
`request` library. -/
structure HttpRequest where
  method : Method
  options : RequestOptions

/-- `ArtifactoryAPI.prototype.getRequestOptions`: base URL concatenated with
the action path, an `Authorization: Basic ...` header holding the stored
credentials verbatim, `strictSSL: false`, and the optional query-string
params. -/
def ArtifactoryAPI.getRequestOptions (self : ArtifactoryAPI) (actionPath : String)
    (params : Option (List (String × String))) : RequestOptions :=
  { url := self.url_ ++ actionPath
    authorization := "Basic " ++ self.basicHttpAuth_
    strictSSL := false
    qs := params }

/-- `ACTIONS.filePath` template `/<repoKey>/<filePath>` rendered. -/
def actionFilePath (repoKey filePath : String) : String :=
  "/" ++ repoKey ++ "/" ++ filePath

/-- `ACTIONS.getFileInfo` template `/api/storage/<repoKey>/<filePath>`. -/
def actionGetFileInfo (repoKey filePath : String) : String :=
  "/api/storage/" ++ repoKey ++ "/" ++ filePath

/-- `ACTIONS.downloadFolder` template
`/api/archive/download/<repoKey>/<path>`. -/
def actionDownloadFolder (repoKey p : String) : String :=
  "/api/archive/download/" ++ repoKey ++ "/" ++ p

/-- `ACTIONS.moveIem` template (name as in the source)
`/api/move/<srcRepoKey>/<srcFilePath>?to=/<dstRepoKey>/<dstFilePath>`. -/
def actionMoveIem (srcRepoKey srcFilePath dstRepoKey dstFilePath : String) : String :=
  "/api/move/" ++ srcRepoKey ++ "/" ++ srcFilePath ++ "?to=/" ++ dstRepoKey ++ "/" ++ dstFilePath

/-- The guard `remotePath[remotePath.length - 1] !== '/'` appears (negated) in
`getFolderInfo`, `createFolder`, `deleteFolder`, `moveItem` and `moveItems`:
JavaScript indexing reads the last character, `undefined` for the empty
string, so the test holds exactly when the last character exists and is a
slash. -/
def endsWithSlash (s : String) : Bool :=
  decide (s.data.getLast? = some '/')

/-- `if (remotePath[remotePath.length - 1] !== '/') remotePath = remotePath + '/'`
— the trailing-separator normalization shared by `getFolderInfo`,
`createFolder`, `deleteFolder` and `moveItems`. -/
def ensureTrailingSlash (s : String) : String :=
  if endsWithSlash s then s else s ++ "/"

/-- `ArtifactoryAPI.prototype.getFileInfo`: the GET request it issues. -/
def ArtifactoryAPI.getFileInfoRequest (self : ArtifactoryAPI)
    (repoKey remotefilePath : String) : HttpRequest :=
  { method := .get
    options := self.getRequestOptions (actionGetFileInfo repoKey remotefilePath) none }

/-- The `getFileInfo` callback: rejects with `error.message` on transport
failure, rejects with the status code on non-200, resolves with
`JSON.parse(response.body)` on 200 (`JSON.parse` of an absent body throws). -/
def getFileInfoCallback (net : NetResult) : Outcome :=
  match net with
  | .err message => .rejected (.str message)
  | .resp r =>
    if r.statusCode = 200 then
      match r.body with
      | some v => .resolved v
      | none => .crashed "SyntaxError in JSON.parse"
    else .rejected (.num r.statusCode)

/-- `ArtifactoryAPI.prototype.getFileInfo` as request trace plus outcome. -/
def ArtifactoryAPI.getFileInfo (self : ArtifactoryAPI) (repoKey remotefilePath : String)
    (net : NetResult) : HttpRequest × Outcome :=
  (self.getFileInfoRequest repoKey remotefilePath, getFileInfoCallback net)

/-- `ArtifactoryAPI.prototype.getFolderInfo`: trailing-slash normalization,
then delegation to `getFileInfo`. -/
def ArtifactoryAPI.getFolderInfo (self : ArtifactoryAPI) (repoKey remotePath : String)
    (net : NetResult) : HttpRequest × Outcome :=
  self.getFileInfo repoKey (ensureTrailingSlash remotePath) net

/-- The `isPathExists` callback.  The source switches on
`response.statusCode` without first checking the `error` argument; on a
transport failure the `response` argument is `undefined` and the member
access throws a `TypeError` inside the callback, so the promise never
settles. -/
def isPathExistsCallback (net : NetResult) : Outcome :=
  match net with
  | .err _ => .crashed "TypeError: cannot read statusCode of undefined"
  | .resp r =>
    if r.statusCode = 200 then .resolved (.bool true)
    else if r.statusCode = 404 then .resolved (.bool false)
    else .rejected (.num r.statusCode)

/-- `ArtifactoryAPI.prototype.isPathExists`: a HEAD request on the
`ACTIONS.filePath` target, settled by `isPathExistsCallback`. -/
def ArtifactoryAPI.isPathExists (self : ArtifactoryAPI) (repoKey remotefilePath : String)
    (net : NetResult) : HttpRequest × Outcome :=
  ({ method := .head
     options := self.getRequestOptions (actionFilePath repoKey remotefilePath) none },
   isPathExistsCallback net)

/-- The test `fileToUploadPath.match(/^https?:\/\//i)` in `uploadFile`: the
path is a remote URL when it starts, case-insensitively, with `http://` or
`https://`. -/
def isRemoteUrl (s : String) : Bool :=
  s.toLower.startsWith "http://" || s.toLower.startsWith "https://"

/-- Local-file-system facts and transport results `uploadFile` consumes:
whether the (local) file to upload exists, the transport result of the
existence-check HEAD, and the transport result of the PUT. -/
structure UploadEnv where
  localFileExists : Bool
  headNet : NetResult
  putNet : NetResult

/-- The PUT callback inside `uploadFile`: rejects with `error.message` on
transport failure, resolves with the parsed body on 201, rejects with a
message naming the status otherwise. -/
def uploadPutCallback (net : NetResult) : Outcome :=
  match net with
  | .err message => .rejected (.str message)
  | .resp r =>
    if r.statusCode = 201 then
      match r.body with
      | some v => .resolved v
      | none => .crashed "SyntaxError in JSON.parse"
    else .rejected (.str ("HTTP Status Code from server was: " ++ toString r.statusCode))

/-- `ArtifactoryAPI.prototype.uploadFile`.  `path.resolve` on the local path
is modelled as the identity (paths are taken already resolved; the claims
never distinguish a path from its resolution).  Flow: reject without any
request when a local source is missing; otherwise HEAD via `isPathExists`;
a rejection of the existence check propagates through the `.fail` handler; if
the path exists and `forceUpload` is false, reject without a PUT; otherwise
PUT the stream and settle by `uploadPutCallback`. -/
def ArtifactoryAPI.uploadFile (self : ArtifactoryAPI)
    (repoKey remotefilePath fileToUploadPath : String) (forceUpload : Bool)
    (env : UploadEnv) : List HttpRequest × Outcome :=
  let isRemote := isRemoteUrl fileToUploadPath
  if !isRemote && !env.localFileExists then
    ([], .rejected (.str ("The file to upload " ++ fileToUploadPath ++ " does not exist")))
  else
    let (headReq, headOut) := self.isPathExists repoKey remotefilePath env.headNet
    match headOut with
    | .crashed m => ([headReq], .crashed m)
    | .rejected e => ([headReq], .rejected e)
    | .resolved fileExists =>
      if fileExists.truthy && !forceUpload then
        ([headReq],
         .rejected (.str "File already exists and forceUpload flag was not provided with a TRUE value."))
      else
        let putReq : HttpRequest :=
          { method := .put
            options := self.getRequestOptions (actionFilePath repoKey remotefilePath) none }
        ([headReq, putReq], uploadPutCallback env.putNet)

/-- `path.dirname` on an already-resolved path: everything before the last
separator (`"."` when there is none, `"/"` for a file directly under the
root). -/
def dirname (p : String) : String :=
  match (p.data.reverse.dropWhile (fun c => c ≠ '/')) with
  | [] => "."
  | _ :: tail => if tail.isEmpty then "/" else String.mk tail.reverse

/-- Environment consumed by `downloadFile`: whether the destination's parent
directory exists, the response event of the GET (the source installs only a
`response` listener, so only received responses are modelled), the transport
result of the `getFileInfo` sub-call, and the result of `md5File` on the
written file. -/
structure DownloadEnv where
  destDirExists : Bool
  response : Response
  fileInfoNet : NetResult
  md5Result : Except String String

/-- `ArtifactoryAPI.prototype.downloadFile`, returning the settlement and
whether the destination file was written.  On 200 the body is streamed to
disk; with `checkChecksum` set, the file info is fetched and the MD5 of the
written file is compared against `fileInfo.checksums.md5`.  On a match the
operation resolves with a message naming the digest.  On a mismatch the
source builds its rejection message from `options.url`, but no variable
`options` is in scope anywhere in `downloadFile`, so the lookup throws a
`ReferenceError` before `reject` is called: the promise never settles and
the written file stays on disk. -/
def ArtifactoryAPI.downloadFile (self : ArtifactoryAPI)
    (repoKey remotefilePath destinationFile : String) (checkChecksum : Bool)
    (env : DownloadEnv) : List HttpRequest × Outcome × Bool :=
  if !env.destDirExists then
    ([],
     .rejected (.str ("The destination folder " ++ dirname destinationFile ++ " does not exist.")),
     false)
  else
    let getReq : HttpRequest :=
      { method := .get
        options := self.getRequestOptions (actionFilePath repoKey remotefilePath) none }
    if env.response.statusCode = 200 then
      if checkChecksum then
        ([getReq, self.getFileInfoRequest repoKey remotefilePath],
         match getFileInfoCallback env.fileInfoNet with
         | .crashed m => .crashed m
         | .rejected e => .rejected e
         | .resolved fileInfo =>
           match env.md5Result with
           | .error e => .rejected (.str ("Error while calculating MD5: " ++ e))
           | .ok sum =>
             match fileInfo.getField "checksums" with
             | none => .crashed "TypeError: cannot read md5 of undefined"
             | some checksums =>
               if jsStrictEqString sum (checksums.getField "md5") then
                 .resolved (.str ("Download was SUCCESSFUL even checking expected checksum MD5 ("
                   ++ sum ++ ")"))
               else
                 .crashed "ReferenceError: options is not defined",
         true)
      else
        ([getReq], .resolved (.str "Download was SUCCESSFUL"), true)
    else
      ([getReq], .rejected (.str ("Server returned " ++ toString env.response.statusCode)), false)

/-- `ArtifactoryAPI.prototype.downloadFolder`: the GET request it issues,
with the `archiveType` query parameter defaulting to `zip`. -/
def ArtifactoryAPI.downloadFolderRequest (self : ArtifactoryAPI)
    (repoKey remotePath : String) (archiveType : Option String) : HttpRequest :=
  { method := .get
    options := self.getRequestOptions (actionDownloadFolder repoKey remotePath)
      (some [("archiveType", archiveType.getD "zip")]) }

/-- The `_deletePath` callback.  Like `isPathExists`, the source reads
`response.statusCode` without checking the `error` argument, so a transport
failure throws a `TypeError` inside the callback and the promise never
settles. -/
def deletePathCallback (net : NetResult) (url : String) : Outcome :=
  match net with
  | .err _ => .crashed "TypeError: cannot read statusCode of undefined"
  | .resp r =>
    if r.statusCode = 204 then .resolved (.str "Deleted")
    else .rejected (.errObj r.statusCode r.statusMessage (bodyOrEmpty r) url)

/-- `ArtifactoryAPI.prototype._deletePath`: a DELETE on the
`ACTIONS.filePath` target. -/
def ArtifactoryAPI.deletePath (self : ArtifactoryAPI) (repoKey remotePath : String)
    (net : NetResult) : HttpRequest × Outcome :=
  let opts := self.getRequestOptions (actionFilePath repoKey remotePath) none
  ({ method := .del, options := opts }, deletePathCallback net opts.url)

/-- `ArtifactoryAPI.prototype.deleteFolder`: trailing-slash normalization,
then `_deletePath`. -/
def ArtifactoryAPI.deleteFolder (self : ArtifactoryAPI) (repoKey remotePath : String)
    (net : NetResult) : HttpRequest × Outcome :=
  self.deletePath repoKey (ensureTrailingSlash remotePath) net

/-- `ArtifactoryAPI.prototype.deleteFile`: `_deletePath` unchanged. -/
def ArtifactoryAPI.deleteFile (self : ArtifactoryAPI) (repoKey remotePath : String)
    (net : NetResult) : HttpRequest × Outcome :=
  self.deletePath repoKey remotePath net

/-- The `createFolder` callback: rejects with the error on transport failure,
resolves with the parsed body (or the literal "Created") on 201, rejects with
the structured error otherwise. -/
def createFolderCallback (net : NetResult) (url : String) : Outcome :=
  match net with
  | .err message => .rejected (.str message)
  | .resp r =>
    if r.statusCode = 201 then .resolved (bodyOrDefault r "Created")
    else .rejected (.errObj r.statusCode r.statusMessage (bodyOrEmpty r) url)

/-- `ArtifactoryAPI.prototype.createFolder`: trailing-slash normalization,
then a PUT on the `ACTIONS.filePath` target. -/
def ArtifactoryAPI.createFolder (self : ArtifactoryAPI) (repoKey remotePath : String)
    (net : NetResult) : HttpRequest × Outcome :=
  let rp := ensureTrailingSlash remotePath
  let opts := self.getRequestOptions (actionFilePath repoKey rp) none
  ({ method := .put, options := opts }, createFolderCallback net opts.url)

/-- The `_moveItem` settlement as an `Except` (the callback never throws:
it checks `error` before touching the response). -/
def moveItemSettle (net : NetResult) (url : String) : Except JsValue JsValue :=
  match net with
  | .err message => .error (.str message)
  | .resp r =>
    if r.statusCode = 200 then .ok (bodyOrDefault r "Moved")
    else .error (.errObj r.statusCode r.statusMessage (bodyOrEmpty r) url)

/-- `ArtifactoryAPI.prototype._moveItem`: a POST on the `ACTIONS.moveIem`
target, with a `dry=1` query parameter when `dryrun` is set. -/
def ArtifactoryAPI.moveItemRaw (self : ArtifactoryAPI)
    (repoKeySrc remotePathSrc repoKeyDst remotePathDst : String) (dryrun : Bool)
    (net : NetResult) : HttpRequest × Except JsValue JsValue :=
  let actionPath := actionMoveIem repoKeySrc remotePathSrc repoKeyDst remotePathDst
  let opts := self.getRequestOptions actionPath (if dryrun then some [("dry", "1")] else none)
  ({ method := .post, options := opts }, moveItemSettle net opts.url)

/-- `ArtifactoryAPI.prototype.moveItem`.  When the destination ends in a
separator, `createFolder` is attempted first and — through `.finally` — its
outcome, success or failure, is discarded before `_moveItem` runs, whose
settlement becomes the overall outcome.  Otherwise `_moveItem` runs
directly. -/
def ArtifactoryAPI.moveItem (self : ArtifactoryAPI)
    (repoKeySrc remotePathSrc repoKeyDst remotePathDst : String) (dryrun : Bool)
    (createNet moveNet : NetResult) : List HttpRequest × Outcome :=
  let (mvReq, mvSettle) :=
    self.moveItemRaw repoKeySrc remotePathSrc repoKeyDst remotePathDst dryrun moveNet
  let mvOut : Outcome :=
    match mvSettle with
    | .ok v => .resolved v
    | .error e => .rejected e
  if endsWithSlash remotePathDst then
    ([(self.createFolder repoKeyDst remotePathDst createNet).1, mvReq], mvOut)
  else
    ([mvReq], mvOut)

/-- The file-name extraction in `moveItems`:
`idx = item.uri.lastIndexOf('/'); if (idx > -1) fileName = item.uri.substring(idx+1)`.
The characters after the last slash — when no slash occurs the whole uri —
are exactly the longest slash-free suffix. -/
def fileNameOfUri (uri : String) : String :=
  String.mk ((uri.data.reverse.takeWhile (fun c => c ≠ '/')).reverse)

/-- One entry of `result.children` in a FolderInfo payload: its `uri` field
(the empty string standing for a falsy/absent uri) and its `folder` flag. -/
structure Child where
  uri : String
  folder : Bool

/-- The parsed FolderInfo payload as `moveItems` reads it: only the
`children` field matters; `none` models a payload with no (or a falsy)
`children` field, `some l` a present children array — note an empty array is
truthy in JavaScript, so it is distinct from `none`. -/
structure FolderListing where
  children : Option (List Child)

/-- The filter applied to each child in `moveItems`: non-folder entries with
a truthy uri whose extracted file name satisfies the caller's filter
callback. -/
def childSelected (filterCb : String → Bool) (c : Child) : Bool :=
  !c.folder && !c.uri.isEmpty && filterCb (fileNameOfUri c.uri)

/-- The uris `moveItems` collects into `filesToMove`, in order. -/
def filesToMove (filterCb : String → Bool) (children : List Child) : List String :=
  (children.filter (childSelected filterCb)).map (fun c => c.uri)

/-- The first rejection, in settlement order, among a list of settled
promises: `settleOrder` lists positions into `settles` in the order the
underlying promises settled. -/
def firstSettledFailure (settles : List (Except JsValue JsValue))
    (settleOrder : List Nat) : Option JsValue :=
  settleOrder.findSome? (fun i =>
    match settles[i]? with
    | some (Except.error e) => some e
    | _ => none)

/-- `Q.all` over already-settled promises: if some promise rejected, the
aggregate rejects with the value of the first rejection in settlement order;
otherwise it resolves with the list of fulfillment values in original
order. -/
def qAll (settles : List (Except JsValue JsValue)) (settleOrder : List Nat) :
    Except JsValue (List JsValue) :=
  match firstSettledFailure settles settleOrder with
  | some e => .error e
  | none => .ok (settles.filterMap (fun s => match s with | .ok v => some v | .error _ => none))

/-- Environment consumed by `moveItems`: the settlement of the
`getFolderInfo` sub-call (already interpreted into a listing or a rejection
value), the transport result of the best-effort `createFolder`, the
transport result of each individual move keyed by the moved uri, and the
order in which the individual move promises settle. -/
structure MoveItemsEnv where
  folderInfo : Except JsValue FolderListing
  createNet : NetResult
  moveNets : String → NetResult
  settleOrder : List Nat

/-- The per-file settlements of the individual `_moveItem` calls issued by
`moveItems` for children `l`: each call's source path is the plain
concatenation `remotePathSrc + uri` of the normalized source directory with
the child's uri. -/
def ArtifactoryAPI.moveItemsSettles (self : ArtifactoryAPI)
    (repoKeySrc remotePathSrc : String) (filterCb : String → Bool)
    (repoKeyDst remotePathDst : String) (dryrun : Bool) (env : MoveItemsEnv)
    (l : List Child) : List (Except JsValue JsValue) :=
  (filesToMove filterCb l).map (fun uri =>
    (self.moveItemRaw repoKeySrc (ensureTrailingSlash remotePathSrc ++ uri)
      repoKeyDst (ensureTrailingSlash remotePathDst) dryrun (env.moveNets uri)).2)

/-- The requests of the individual `_moveItem` calls issued by `moveItems`
for children `l`, in issue order. -/
def ArtifactoryAPI.moveItemsRequests (self : ArtifactoryAPI)
    (repoKeySrc remotePathSrc : String) (filterCb : String → Bool)
    (repoKeyDst remotePathDst : String) (dryrun : Bool) (env : MoveItemsEnv)
    (l : List Child) : List HttpRequest :=
  (filesToMove filterCb l).map (fun uri =>
    (self.moveItemRaw repoKeySrc (ensureTrailingSlash remotePathSrc ++ uri)
      repoKeyDst (ensureTrailingSlash remotePathDst) dryrun (env.moveNets uri)).1)

/-- `ArtifactoryAPI.prototype.moveItems`.  Both directories are normalized
to a trailing separator; the source folder is listed via `getFolderInfo`,
whose rejection propagates.  When the payload has no (falsy) `children`
field the `.then` handler returns the informational string and nothing else
happens.  Otherwise `createFolder` on the destination is attempted with its
outcome ignored (`.finally`), one `_moveItem` per selected child is issued
on source path `remotePathSrc + uri`, and `Q.all` joins them: resolve with
the list of per-item results, or reject with the first rejection in
settlement order. -/
def ArtifactoryAPI.moveItems (self : ArtifactoryAPI)
    (repoKeySrc remotePathSrcIn : String) (filterCb : String → Bool)
    (repoKeyDst remotePathDstIn : String) (dryrun : Bool) (env : MoveItemsEnv) :
    List HttpRequest × Outcome :=
  let remotePathSrc := ensureTrailingSlash remotePathSrcIn
  let remotePathDst := ensureTrailingSlash remotePathDstIn
  let infoReq := self.getFileInfoRequest repoKeySrc remotePathSrc
  match env.folderInfo with
  | .error e => ([infoReq], .rejected e)
  | .ok listing =>
    match listing.children with
    | none => ([infoReq], .resolved (.str ("No files in " ++ remotePathSrc)))
    | some l =>
      let cfReq := (self.createFolder repoKeyDst remotePathDst env.createNet).1
      let settles := self.moveItemsSettles repoKeySrc remotePathSrcIn filterCb
        repoKeyDst remotePathDstIn dryrun env l
      ([infoReq, cfReq] ++ self.moveItemsRequests repoKeySrc remotePathSrcIn filterCb
          repoKeyDst remotePathDstIn dryrun env l,
       match qAll settles env.settleOrder with
       | .ok vs => .resolved (.arr vs)
       | .error e => .rejected e)

/-- A filter selecting `*.jar` file names (a concrete filter callback for
scenarios: true exactly when the name ends in `.jar`). -/
def endsWithJar (s : String) : Bool :=
  decide (s.data.reverse.take 4 = ['r', 'a', 'j', '.'])

/-! ## Helper lemmas -/

theorem slash_data : ("/" : String).data = ['/'] := rfl

theorem endsWithSlash_append_slash (s : String) : endsWithSlash (s ++ "/") = true := by
  simp [endsWithSlash, String.data_append, slash_data, List.getLast?_append]

theorem endsWithSlash_append_of (a b : String) (h : endsWithSlash b = true) :
    endsWithSlash (a ++ b) = true := by
  simp only [endsWithSlash, decide_eq_true_eq] at h ⊢
  simp [String.data_append, List.getLast?_append, h]

theorem ensureTrailingSlash_ends (s : String) :
    endsWithSlash (ensureTrailingSlash s) = true := by
  unfold ensureTrailingSlash
  split
  · assumption
  · exact endsWithSlash_append_slash s

theorem ensureTrailingSlash_eq_self {t : String} (h : endsWithSlash t = true) :
    ensureTrailingSlash t = t := by
  simp [ensureTrailingSlash, h]

theorem ensureTrailingSlash_append (s : String) (h : endsWithSlash s = false) :
    ensureTrailingSlash (s ++ "/") = ensureTrailingSlash s := by
  rw [ensureTrailingSlash_eq_self (endsWithSlash_append_slash s)]
  simp [ensureTrailingSlash, h]

/-! ## Claim theorems -/

/-- C3: `isPathExists` issues a HEAD request on the `/repoKey/path` target
and, for every received response, resolves to `true` on status 200, to
`false` on status 404, and rejects with the status code on any other
status. -/
theorem isPathExists_status_contract (self : ArtifactoryAPI) (repoKey p : String)
    (r : Response) :
    ((self.isPathExists repoKey p (.resp r)).1.method = Method.head
      ∧ (self.isPathExists repoKey p (.resp r)).1.options.url
          = self.url_ ++ actionFilePath repoKey p)
    ∧ (r.statusCode = 200 →
        (self.isPathExists repoKey p (.resp r)).2 = .resolved (.bool true))
    ∧ (r.statusCode = 404 →
        (self.isPathExists repoKey p (.resp r)).2 = .resolved (.bool false))
    ∧ (r.statusCode ≠ 200 → r.statusCode ≠ 404 →
        (self.isPathExists repoKey p (.resp r)).2 = .rejected (.num r.statusCode)) := by
  refine ⟨⟨rfl, rfl⟩, fun h => ?_, fun h => ?_, fun h1 h2 => ?_⟩
  · simp [ArtifactoryAPI.isPathExists, isPathExistsCallback, h]
  · simp [ArtifactoryAPI.isPathExists, isPathExistsCallback, h]
  · simp [ArtifactoryAPI.isPathExists, isPathExistsCallback, h1, h2]

/-- Witness for C3: a stubbed 500 response makes `isPathExists` reject with
the status code. -/
theorem isPathExists_status_contract_witness :
    ((⟨"http://h", "auth"⟩ : ArtifactoryAPI).isPathExists "repo" "a/b.jar"
        (.resp ⟨500, "Internal Server Error", none⟩)).2 = Outcome.rejected (.num 500) :=
  (isPathExists_status_contract ⟨"http://h", "auth"⟩ "repo" "a/b.jar"
      ⟨500, "Internal Server Error", none⟩).2.2.2 (by decide) (by decide)

/-- C8: `getFolderInfo`, `createFolder` and `deleteFolder` always request a
path ending in a trailing separator; the normalization appends a slash only
when absent, is idempotent, and an input with or without a trailing
separator yields the identical request. -/
theorem folder_ops_trailing_slash_normalization (self : ArtifactoryAPI)
    (repoKey p : String) (net : NetResult) :
    (endsWithSlash ((self.getFolderInfo repoKey p net).1.options.url) = true
      ∧ endsWithSlash ((self.createFolder repoKey p net).1.options.url) = true
      ∧ endsWithSlash ((self.deleteFolder repoKey p net).1.options.url) = true)
    ∧ (endsWithSlash p = true → ensureTrailingSlash p = p)
    ∧ ensureTrailingSlash (ensureTrailingSlash p) = ensureTrailingSlash p
    ∧ (endsWithSlash p = false →
        (self.getFolderInfo repoKey (p ++ "/") net).1 = (self.getFolderInfo repoKey p net).1
          ∧ (self.createFolder repoKey (p ++ "/") net).1 = (self.createFolder repoKey p net).1
          ∧ (self.deleteFolder repoKey (p ++ "/") net).1
              = (self.deleteFolder repoKey p net).1) := by
  refine ⟨⟨?_, ?_, ?_⟩, fun h => ensureTrailingSlash_eq_self h,
    ensureTrailingSlash_eq_self (ensureTrailingSlash_ends p), fun h => ?_⟩
  · simp only [ArtifactoryAPI.getFolderInfo, ArtifactoryAPI.getFileInfo,
      ArtifactoryAPI.getFileInfoRequest, ArtifactoryAPI.getRequestOptions, actionGetFileInfo]
    exact endsWithSlash_append_of _ _ (endsWithSlash_append_of _ _ (ensureTrailingSlash_ends p))
  · simp only [ArtifactoryAPI.createFolder, ArtifactoryAPI.getRequestOptions, actionFilePath]
    exact endsWithSlash_append_of _ _ (endsWithSlash_append_of _ _ (ensureTrailingSlash_ends p))
  · simp only [ArtifactoryAPI.deleteFolder, ArtifactoryAPI.deletePath,
      ArtifactoryAPI.getRequestOptions, actionFilePath]
    exact endsWithSlash_append_of _ _ (endsWithSlash_append_of _ _ (ensureTrailingSlash_ends p))
  · refine ⟨?_, ?_, ?_⟩ <;>
      simp only [ArtifactoryAPI.getFolderInfo, ArtifactoryAPI.getFileInfo,
        ArtifactoryAPI.createFolder, ArtifactoryAPI.deleteFolder, ArtifactoryAPI.deletePath,
        ensureTrailingSlash_append p h]

/-- Witness for C8: for the slash-free path `x/y`, calling with `x/y/` and
with `x/y` produces identical requests in all three operations. -/
theorem folder_ops_trailing_slash_normalization_witness :
    ((⟨"u", "a"⟩ : ArtifactoryAPI).getFolderInfo "repo" ("x/y" ++ "/")
        (.resp ⟨201, "", none⟩)).1
      = ((⟨"u", "a"⟩ : ArtifactoryAPI).getFolderInfo "repo" "x/y" (.resp ⟨201, "", none⟩)).1
    ∧ ((⟨"u", "a"⟩ : ArtifactoryAPI).createFolder "repo" ("x/y" ++ "/")
        (.resp ⟨201, "", none⟩)).1
      = ((⟨"u", "a"⟩ : ArtifactoryAPI).createFolder "repo" "x/y" (.resp ⟨201, "", none⟩)).1
    ∧ ((⟨"u", "a"⟩ : ArtifactoryAPI).deleteFolder "repo" ("x/y" ++ "/")
        (.resp ⟨201, "", none⟩)).1
      = ((⟨"u", "a"⟩ : ArtifactoryAPI).deleteFolder "repo" "x/y" (.resp ⟨201, "", none⟩)).1 :=
  (folder_ops_trailing_slash_normalization ⟨"u", "a"⟩ "repo" "x/y"
      (.resp ⟨201, "", none⟩)).2.2.2 (by decide)

/-- C4: `uploadFile` with `forceUpload = false` whose existence check
resolves `true` rejects with the already-exists message, and its request
trace contains no PUT. -/
theorem uploadFile_existing_no_put (self : ArtifactoryAPI)
    (repoKey rp ftu : String) (env : UploadEnv)
    (hsrc : (isRemoteUrl ftu || env.localFileExists) = true)
    (hexists : (self.isPathExists repoKey rp env.headNet).2 = .resolved (.bool true)) :
    (self.uploadFile repoKey rp ftu false env).2
        = .rejected
            (.str "File already exists and forceUpload flag was not provided with a TRUE value.")
      ∧ ∀ req ∈ (self.uploadFile repoKey rp ftu false env).1, req.method ≠ Method.put := by
  simp only [ArtifactoryAPI.isPathExists] at hexists
  have hg : (!isRemoteUrl ftu && !env.localFileExists) = false := by
    rw [← Bool.not_or, hsrc]; rfl
  constructor <;>
    simp [ArtifactoryAPI.uploadFile, ArtifactoryAPI.isPathExists, hg, hexists, JsValue.truthy]

/-- Witness for C4: against an existing remote path (stub HEAD 200) and with
`forceUpload = false`, the upload rejects. -/
theorem uploadFile_existing_no_put_witness :
    ((⟨"u", "a"⟩ : ArtifactoryAPI).uploadFile "repo" "p/f.jar" "local/f.jar" false
        ⟨true, .resp ⟨200, "OK", none⟩, .resp ⟨201, "", none⟩⟩).2
      = .rejected
          (.str "File already exists and forceUpload flag was not provided with a TRUE value.") :=
  (uploadFile_existing_no_put ⟨"u", "a"⟩ "repo" "p/f.jar" "local/f.jar"
      ⟨true, .resp ⟨200, "OK", none⟩, .resp ⟨201, "", none⟩⟩ (by simp) rfl).1

/-- C1 (code bug): with `checkChecksum` set, a 200 download and a
server-reported `checksums.md5` that differs from the computed digest, the
mismatch branch evaluates `options.url` — but no `options` variable is in
scope in `downloadFile` — so a `ReferenceError` is thrown inside the
callback instead of the documented rejection naming both digests; the
written file is (as the claim says) left on disk. -/
theorem downloadFile_checksum_mismatch_crash :
    ((⟨"http://h", "auth"⟩ : ArtifactoryAPI).downloadFile "repo" "a/b.jar" "/tmp/b.jar" true
        { destDirExists := true
          response := ⟨200, "OK", none⟩
          fileInfoNet := .resp ⟨200, "OK",
            some (.obj [("checksums", .obj [("md5", .str "abc123")])])⟩
          md5Result := .ok "deadbeef" }).2.1
      = Outcome.crashed "ReferenceError: options is not defined"
    ∧ ((⟨"http://h", "auth"⟩ : ArtifactoryAPI).downloadFile "repo" "a/b.jar" "/tmp/b.jar" true
        { destDirExists := true
          response := ⟨200, "OK", none⟩
          fileInfoNet := .resp ⟨200, "OK",
            some (.obj [("checksums", .obj [("md5", .str "abc123")])])⟩
          md5Result := .ok "deadbeef" }).2.2 = true :=
  ⟨rfl, rfl⟩

/-- C2 (code bug): on a transport-level failure — `error` set, no `response`
received — the `isPathExists` and `_deletePath` callbacks read
`response.statusCode` without checking `error` first, so they throw a
`TypeError` inside the callback and never reject; the failure is not
surfaced to the caller as a rejected promise. -/
theorem transport_failure_not_rejected :
    isPathExistsCallback (.err "Error: connect ECONNREFUSED")
        = Outcome.crashed "TypeError: cannot read statusCode of undefined"
    ∧ deletePathCallback (.err "Error: connect ECONNREFUSED") "http://h/repo/p"
        = Outcome.crashed "TypeError: cannot read statusCode of undefined"
    ∧ (∀ v, isPathExistsCallback (.err "Error: connect ECONNREFUSED") ≠ Outcome.rejected v)
    ∧ (∀ v, deletePathCallback (.err "Error: connect ECONNREFUSED") "http://h/repo/p"
        ≠ Outcome.rejected v) := by
  refine ⟨rfl, rfl, fun v h => ?_, fun v h => ?_⟩ <;>
    simp [isPathExistsCallback, deletePathCallback] at h

/-- C7: `moveItem` with a destination ending in a separator issues the
folder pre-creation request before the move request and its outcome does
not affect the overall result; with a destination not ending in a
separator, only the move request is issued. -/
theorem moveItem_precreate_iff_trailing_slash (self : ArtifactoryAPI)
    (rs sp rd dp : String) (dryrun : Bool) (cn cn2 mn : NetResult) :
    (endsWithSlash dp = true →
        (self.moveItem rs sp rd dp dryrun cn mn).1
            = [(self.createFolder rd dp cn).1, (self.moveItemRaw rs sp rd dp dryrun mn).1]
          ∧ (self.moveItem rs sp rd dp dryrun cn mn).2
              = (self.moveItem rs sp rd dp dryrun cn2 mn).2)
    ∧ (endsWithSlash dp = false →
        (self.moveItem rs sp rd dp dryrun cn mn).1
            = [(self.moveItemRaw rs sp rd dp dryrun mn).1]) := by
  constructor <;> intro h <;>
    simp [ArtifactoryAPI.moveItem, ArtifactoryAPI.moveItemRaw, h]

/-- Witness for C7: with destination `d/` both requests are issued (the
pre-creation failing with 409 does not change the outcome); with
destination `d` only the move request is issued. -/
theorem moveItem_precreate_iff_trailing_slash_witness :
    (((⟨"u", "a"⟩ : ArtifactoryAPI).moveItem "r1" "s/f.jar" "r2" "d/" false
          (.resp ⟨409, "Conflict", none⟩) (.resp ⟨200, "OK", none⟩)).1
        = [((⟨"u", "a"⟩ : ArtifactoryAPI).createFolder "r2" "d/" (.resp ⟨409, "Conflict", none⟩)).1,
           ((⟨"u", "a"⟩ : ArtifactoryAPI).moveItemRaw "r1" "s/f.jar" "r2" "d/" false
              (.resp ⟨200, "OK", none⟩)).1]
      ∧ ((⟨"u", "a"⟩ : ArtifactoryAPI).moveItem "r1" "s/f.jar" "r2" "d/" false
            (.resp ⟨409, "Conflict", none⟩) (.resp ⟨200, "OK", none⟩)).2
          = ((⟨"u", "a"⟩ : ArtifactoryAPI).moveItem "r1" "s/f.jar" "r2" "d/" false
              (.resp ⟨201, "Created", none⟩) (.resp ⟨200, "OK", none⟩)).2)
    ∧ ((⟨"u", "a"⟩ : ArtifactoryAPI).moveItem "r1" "s/f.jar" "r2" "d" false
          (.resp ⟨409, "Conflict", none⟩) (.resp ⟨200, "OK", none⟩)).1
        = [((⟨"u", "a"⟩ : ArtifactoryAPI).moveItemRaw "r1" "s/f.jar" "r2" "d" false
            (.resp ⟨200, "OK", none⟩)).1] :=
  ⟨(moveItem_precreate_iff_trailing_slash ⟨"u", "a"⟩ "r1" "s/f.jar" "r2" "d/" false
      (.resp ⟨409, "Conflict", none⟩) (.resp ⟨201, "Created", none⟩)
      (.resp ⟨200, "OK", none⟩)).1 (by decide),
   (moveItem_precreate_iff_trailing_slash ⟨"u", "a"⟩ "r1" "s/f.jar" "r2" "d" false
      (.resp ⟨409, "Conflict", none⟩) (.resp ⟨201, "Created", none⟩)
      (.resp ⟨200, "OK", none⟩)).2 (by decide)⟩

/-- C5 counterexample: when the listing reports an empty (but present)
`children` array — a folder with no children — `moveItems` does not
short-circuit with an informational message: it still issues the
destination-folder pre-creation PUT and resolves with the empty result
list, which is not a string message. -/
theorem moveItems_empty_children_counterexample :
    ((⟨"http://h", "auth"⟩ : ArtifactoryAPI).moveItems "r" "src" endsWithJar "r" "dst" false
        { folderInfo := .ok ⟨some []⟩
          createNet := .resp ⟨201, "Created", none⟩
          moveNets := fun _ => .resp ⟨200, "OK", none⟩
          settleOrder := [] }).2
      = Outcome.resolved (.arr [])
    ∧ (∀ s, Outcome.resolved (JsValue.arr []) ≠ Outcome.resolved (JsValue.str s))
    ∧ ((⟨"http://h", "auth"⟩ : ArtifactoryAPI).moveItems "r" "src" endsWithJar "r" "dst" false
        { folderInfo := .ok ⟨some []⟩
          createNet := .resp ⟨201, "Created", none⟩
          moveNets := fun _ => .resp ⟨200, "OK", none⟩
          settleOrder := [] }).1.map (fun r => r.method)
      = [Method.get, Method.put] := by
  refine ⟨rfl, fun s h => ?_, rfl⟩
  simp at h

/-- C5 (amended): `moveItems` short-circuits with the informational message
exactly when the listing has no `children` field; when a children array is
present (even empty) it pre-creates the destination folder and issues
exactly one move request per child that is not a folder, has a truthy uri,
and whose extracted file name satisfies the filter callback, in listing
order. -/
theorem moveItems_filtering (self : ArtifactoryAPI) (rs src : String)
    (filterCb : String → Bool) (rd dst : String) (dryrun : Bool) (env : MoveItemsEnv) :
    (env.folderInfo = .ok ⟨none⟩ →
        (self.moveItems rs src filterCb rd dst dryrun env).1
            = [self.getFileInfoRequest rs (ensureTrailingSlash src)]
          ∧ (self.moveItems rs src filterCb rd dst dryrun env).2
              = .resolved (.str ("No files in " ++ ensureTrailingSlash src)))
    ∧ (∀ l, env.folderInfo = .ok ⟨some l⟩ →
        (self.moveItems rs src filterCb rd dst dryrun env).1
            = self.getFileInfoRequest rs (ensureTrailingSlash src)
              :: (self.createFolder rd (ensureTrailingSlash dst) env.createNet).1
              :: (l.filter (childSelected filterCb)).map (fun c =>
                   (self.moveItemRaw rs (ensureTrailingSlash src ++ c.uri) rd
                     (ensureTrailingSlash dst) dryrun (env.moveNets c.uri)).1)) := by
  constructor
  · intro h
    constructor <;> simp [ArtifactoryAPI.moveItems, h]
  · intro l h
    simp [ArtifactoryAPI.moveItems, ArtifactoryAPI.moveItemsRequests, filesToMove, h,
      List.map_map, Function.comp]

/-- Witness for C5: children `a.jar`, `b.zip`, `c.jar` with a `*.jar`
filter produce exactly two move requests, for `a.jar` and `c.jar`. -/
theorem moveItems_filtering_witness :
    ((⟨"u", "a"⟩ : ArtifactoryAPI).moveItems "r1" "s" endsWithJar "r2" "d" false
        { folderInfo := .ok ⟨some [⟨"a.jar", false⟩, ⟨"b.zip", false⟩, ⟨"c.jar", false⟩]⟩
          createNet := .resp ⟨201, "Created", none⟩
          moveNets := fun _ => .resp ⟨200, "OK", none⟩
          settleOrder := [0, 1] }).1
      = (⟨"u", "a"⟩ : ArtifactoryAPI).getFileInfoRequest "r1" (ensureTrailingSlash "s")
        :: ((⟨"u", "a"⟩ : ArtifactoryAPI).createFolder "r2" (ensureTrailingSlash "d")
              (.resp ⟨201, "Created", none⟩)).1
        :: (([⟨"a.jar", false⟩, ⟨"b.zip", false⟩, ⟨"c.jar", false⟩] : List Child).filter
              (childSelected endsWithJar)).map (fun c =>
             ((⟨"u", "a"⟩ : ArtifactoryAPI).moveItemRaw "r1" (ensureTrailingSlash "s" ++ c.uri)
               "r2" (ensureTrailingSlash "d") false (.resp ⟨200, "OK", none⟩)).1)
    ∧ filesToMove endsWithJar [⟨"a.jar", false⟩, ⟨"b.zip", false⟩, ⟨"c.jar", false⟩]
        = ["a.jar", "c.jar"] :=
  ⟨(moveItems_filtering ⟨"u", "a"⟩ "r1" "s" endsWithJar "r2" "d" false
      { folderInfo := .ok ⟨some [⟨"a.jar", false⟩, ⟨"b.zip", false⟩, ⟨"c.jar", false⟩]⟩
        createNet := .resp ⟨201, "Created", none⟩
        moveNets := fun _ => .resp ⟨200, "OK", none⟩
        settleOrder := [0, 1] }).2
      [⟨"a.jar", false⟩, ⟨"b.zip", false⟩, ⟨"c.jar", false⟩] rfl,
   by decide⟩

/-- C6: when `moveItems` issues individual moves, the aggregate resolves
exactly when every individual move resolves — to the list of per-item
results — and otherwise rejects with precisely the value of the first
individual rejection in settlement order (so nothing about already-completed
moves is included). -/
theorem moveItems_aggregate_join (self : ArtifactoryAPI) (rs src : String)
    (filterCb : String → Bool) (rd dst : String) (dryrun : Bool) (env : MoveItemsEnv)
    (l : List Child)
    (hinfo : env.folderInfo = .ok ⟨some l⟩)
    (hcover : ∀ i, i < (self.moveItemsSettles rs src filterCb rd dst dryrun env l).length →
        i ∈ env.settleOrder) :
    ((∀ s ∈ self.moveItemsSettles rs src filterCb rd dst dryrun env l, ∃ v, s = .ok v) →
        (self.moveItems rs src filterCb rd dst dryrun env).2
          = .resolved (.arr
              ((self.moveItemsSettles rs src filterCb rd dst dryrun env l).filterMap
                (fun s => match s with | .ok v => some v | .error _ => none))))
    ∧ (∀ e, firstSettledFailure (self.moveItemsSettles rs src filterCb rd dst dryrun env l)
          env.settleOrder = some e →
        (self.moveItems rs src filterCb rd dst dryrun env).2 = .rejected e)
    ∧ (∀ v, (self.moveItems rs src filterCb rd dst dryrun env).2 = .resolved v →
        ∀ s ∈ self.moveItemsSettles rs src filterCb rd dst dryrun env l, ∃ w, s = .ok w) := by
  have hout : (self.moveItems rs src filterCb rd dst dryrun env).2
      = match qAll (self.moveItemsSettles rs src filterCb rd dst dryrun env l)
          env.settleOrder with
        | .ok vs => .resolved (.arr vs)
        | .error e => .rejected e := by
    simp [ArtifactoryAPI.moveItems, hinfo]
  refine ⟨fun hall => ?_, fun e he => ?_, fun v hv s hs => ?_⟩
  · have hnone : firstSettledFailure (self.moveItemsSettles rs src filterCb rd dst dryrun env l)
        env.settleOrder = none := by
      rw [firstSettledFailure, List.findSome?_eq_none_iff]
      intro i _
      cases hSi : (self.moveItemsSettles rs src filterCb rd dst dryrun env l)[i]? with
      | none => simp [hSi]
      | some s =>
        obtain ⟨w, rfl⟩ := hall s (List.getElem?_mem hSi)
        simp [hSi]
    rw [hout]
    simp [qAll, hnone]
  · rw [hout]
    simp [qAll, he]
  · cases s with
    | ok w => exact ⟨w, rfl⟩
    | error e =>
      exfalso
      obtain ⟨i, hSi⟩ := List.getElem?_of_mem hs
      have hi : i < (self.moveItemsSettles rs src filterCb rd dst dryrun env l).length :=
        (List.getElem?_eq_some_iff.mp hSi).1
      have hne : firstSettledFailure (self.moveItemsSettles rs src filterCb rd dst dryrun env l)
          env.settleOrder ≠ none := by
        intro hn
        rw [firstSettledFailure, List.findSome?_eq_none_iff] at hn
        have := hn i (hcover i hi)
        rw [hSi] at this
        simp at this
      obtain ⟨e', he'⟩ := Option.ne_none_iff_exists'.mp hne
      rw [hout] at hv
      simp [qAll, he'] at hv

/-- Witness for C6: a single child whose move fails with 404 makes the
aggregate reject with exactly that structured error. -/
theorem moveItems_aggregate_join_witness :
    ((⟨"u", "a"⟩ : ArtifactoryAPI).moveItems "r1" "s" endsWithJar "r2" "d" false
        { folderInfo := .ok ⟨some [⟨"a.jar", false⟩]⟩
          createNet := .resp ⟨201, "Created", none⟩
          moveNets := fun _ => .resp ⟨404, "Not Found", none⟩
          settleOrder := [0] }).2
      = Outcome.rejected (.errObj 404 "Not Found" (.str "<empty>")
          ("u" ++ actionMoveIem "r1" ("s/" ++ "a.jar") "r2" "d/")) :=
  (moveItems_aggregate_join ⟨"u", "a"⟩ "r1" "s" endsWithJar "r2" "d" false
      { folderInfo := .ok ⟨some [⟨"a.jar", false⟩]⟩
        createNet := .resp ⟨201, "Created", none⟩
        moveNets := fun _ => .resp ⟨404, "Not Found", none⟩
        settleOrder := [0] }
      [⟨"a.jar", false⟩] rfl (by decide)).2.1
    (.errObj 404 "Not Found" (.str "<empty>") ("u" ++ actionMoveIem "r1" ("s/" ++ "a.jar") "r2" "d/"))
    (by rfl)

/-- C10: the source path of each individual move issued by `moveItems` is
the plain concatenation of the normalized source directory with the child's
uri; since the normalized directory ends in a separator, any uri beginning
with a separator yields a doubled separator at the junction. -/
theorem moveItems_source_path_concat (self : ArtifactoryAPI) (rs src : String)
    (filterCb : String → Bool) (rd dst : String) (dryrun : Bool) (env : MoveItemsEnv)
    (l : List Child) (hinfo : env.folderInfo = .ok ⟨some l⟩) :
    ((self.moveItems rs src filterCb rd dst dryrun env).1.drop 2
        = (filesToMove filterCb l).map (fun uri =>
            (self.moveItemRaw rs (ensureTrailingSlash src ++ uri) rd
              (ensureTrailingSlash dst) dryrun (env.moveNets uri)).1))
    ∧ (∀ uri, uri.data.head? = some '/' →
        ∃ a b, (ensureTrailingSlash src ++ uri).data = a ++ '/' :: '/' :: b) := by
  constructor
  · simp [ArtifactoryAPI.moveItems, ArtifactoryAPI.moveItemsRequests, hinfo]
  · intro uri hu
    obtain ⟨t, ht⟩ := List.head?_eq_some_iff.mp hu
    have hs := ensureTrailingSlash_ends src
    simp only [endsWithSlash, decide_eq_true_eq] at hs
    obtain ⟨a, ha⟩ := List.getLast?_eq_some_iff.mp hs
    refine ⟨a, t, ?_⟩
    rw [String.data_append, ha, ht]
    simp

/-- Witness for C10: with source directory `s` (normalized `s/`) and a child
uri `/x.jar` — as Artifactory folder listings return — the move source path
carries a doubled separator. -/
theorem moveItems_source_path_concat_witness :
    ((⟨"u", "a"⟩ : ArtifactoryAPI).moveItems "r1" "s" endsWithJar "r2" "d" false
        { folderInfo := .ok ⟨some [⟨"/x.jar", false⟩]⟩
          createNet := .resp ⟨201, "Created", none⟩
          moveNets := fun _ => .resp ⟨200, "OK", none⟩
          settleOrder := [0] }).1.drop 2
      = (filesToMove endsWithJar [⟨"/x.jar", false⟩]).map (fun uri =>
          ((⟨"u", "a"⟩ : ArtifactoryAPI).moveItemRaw "r1" (ensureTrailingSlash "s" ++ uri) "r2"
            (ensureTrailingSlash "d") false (.resp ⟨200, "OK", none⟩)).1)
    ∧ ∃ a b, (ensureTrailingSlash "s" ++ "/x.jar").data = a ++ '/' :: '/' :: b :=
  ⟨(moveItems_source_path_concat ⟨"u", "a"⟩ "r1" "s" endsWithJar "r2" "d" false
      { folderInfo := .ok ⟨some [⟨"/x.jar", false⟩]⟩
        createNet := .resp ⟨201, "Created", none⟩
        moveNets := fun _ => .resp ⟨200, "OK", none⟩
        settleOrder := [0] }
      [⟨"/x.jar", false⟩] rfl).1,
   (moveItems_source_path_concat ⟨"u", "a"⟩ "r1" "s" endsWithJar "r2" "d" false
      { folderInfo := .ok ⟨some [⟨"/x.jar", false⟩]⟩
        createNet := .resp ⟨201, "Created", none⟩
        moveNets := fun _ => .resp ⟨200, "OK", none⟩
        settleOrder := [0] }
      [⟨"/x.jar", false⟩] rfl).2 "/x.jar" rfl⟩

/-- C9: the client handle is read-only — the source assigns `this.url_` and
`this.basicHttpAuth_` only in the constructor, which is why the embedding is
pure in `self` — and every request issued by every operation carries an
Authorization header equal to `Basic ` followed by the stored credentials
verbatim (never decoded, re-encoded, or validated). -/
theorem every_request_carries_basic_auth (self : ArtifactoryAPI) :
    (∀ a p, (self.getRequestOptions a p).authorization = "Basic " ++ self.basicHttpAuth_)
    ∧ (∀ k f net, (self.getFileInfo k f net).1.options.authorization
        = "Basic " ++ self.basicHttpAuth_)
    ∧ (∀ k f net, (self.isPathExists k f net).1.options.authorization
        = "Basic " ++ self.basicHttpAuth_)
    ∧ (∀ k f u fu env, ∀ r ∈ (self.uploadFile k f u fu env).1,
        r.options.authorization = "Basic " ++ self.basicHttpAuth_)
    ∧ (∀ k f d cc env, ∀ r ∈ (self.downloadFile k f d cc env).1,
        r.options.authorization = "Basic " ++ self.basicHttpAuth_)
    ∧ (∀ k p at0, (self.downloadFolderRequest k p at0).options.authorization
        = "Basic " ++ self.basicHttpAuth_)
    ∧ (∀ k p net, (self.createFolder k p net).1.options.authorization
        = "Basic " ++ self.basicHttpAuth_)
    ∧ (∀ k p net, (self.deleteFolder k p net).1.options.authorization
        = "Basic " ++ self.basicHttpAuth_)
    ∧ (∀ k p net, (self.deleteFile k p net).1.options.authorization
        = "Basic " ++ self.basicHttpAuth_)
    ∧ (∀ a b c d dr n, (self.moveItemRaw a b c d dr n).1.options.authorization
        = "Basic " ++ self.basicHttpAuth_)
    ∧ (∀ a b c d dr cn mn, ∀ r ∈ (self.moveItem a b c d dr cn mn).1,
        r.options.authorization = "Basic " ++ self.basicHttpAuth_)
    ∧ (∀ rs src fc rd dst dr env, ∀ r ∈ (self.moveItems rs src fc rd dst dr env).1,
        r.options.authorization = "Basic " ++ self.basicHttpAuth_) := by
  refine ⟨fun a p => rfl, fun k f net => rfl, fun k f net => rfl,
    fun k f u fu env r hr => ?_, fun k f d cc env r hr => ?_, fun k p at0 => rfl,
    fun k p net => rfl, fun k p net => rfl, fun k p net => rfl, fun a b c d dr n => rfl,
    fun a b c d dr cn mn r hr => ?_, fun rs src fc rd dst dr env r hr => ?_⟩
  · by_cases h1 : (!isRemoteUrl u && !env.localFileExists) = true
    · simp [ArtifactoryAPI.uploadFile, h1] at hr
    · rw [Bool.not_eq_true] at h1
      cases hcb : isPathExistsCallback env.headNet with
      | crashed m =>
        simp [ArtifactoryAPI.uploadFile, ArtifactoryAPI.isPathExists, h1, hcb] at hr
        subst hr; rfl
      | rejected e =>
        simp [ArtifactoryAPI.uploadFile, ArtifactoryAPI.isPathExists, h1, hcb] at hr
        subst hr; rfl
      | resolved fv =>
        by_cases h2 : (fv.truthy && !fu) = true
        · simp [ArtifactoryAPI.uploadFile, ArtifactoryAPI.isPathExists, h1, hcb, h2] at hr
          subst hr; rfl
        · rw [Bool.not_eq_true] at h2
          simp [ArtifactoryAPI.uploadFile, ArtifactoryAPI.isPathExists, h1, hcb, h2] at hr
          rcases hr with hr | hr <;> subst hr <;> rfl
  · by_cases h1 : env.destDirExists = true
    · by_cases h2 : env.response.statusCode = 200
      · cases cc with
        | true =>
          simp [ArtifactoryAPI.downloadFile, h1, h2] at hr
          rcases hr with hr | hr <;> subst hr <;> rfl
        | false =>
          simp [ArtifactoryAPI.downloadFile, h1, h2] at hr
          subst hr; rfl
      · simp [ArtifactoryAPI.downloadFile, h1, h2] at hr
        subst hr; rfl
    · rw [Bool.not_eq_true] at h1
      simp [ArtifactoryAPI.downloadFile, h1] at hr
  · by_cases h1 : endsWithSlash d = true
    · simp [ArtifactoryAPI.moveItem, h1] at hr
      rcases hr with hr | hr <;> subst hr <;> rfl
    · rw [Bool.not_eq_true] at h1
      simp [ArtifactoryAPI.moveItem, h1] at hr
      subst hr; rfl
  · cases hfi : env.folderInfo with
    | error e =>
      simp [ArtifactoryAPI.moveItems, hfi] at hr
      subst hr; rfl
    | ok listing =>
      cases listing with
      | mk children =>
        cases children with
        | none =>
          simp [ArtifactoryAPI.moveItems, hfi] at hr
          subst hr; rfl
        | some l =>
          simp [ArtifactoryAPI.moveItems, ArtifactoryAPI.moveItemsRequests, hfi] at hr
          rcases hr with hr | hr | ⟨uri, _, hr⟩ <;> subst hr <;> rfl

/-- Witness for C9: a concrete request drawn from a concrete `uploadFile`
trace carries the stored credentials in its Authorization header. -/
theorem every_request_carries_basic_auth_witness :
    (HttpRequest.mk Method.head
        ((⟨"u", "dXNlcjpwYXNzd29yZA=="⟩ : ArtifactoryAPI).getRequestOptions
          (actionFilePath "repo" "p/f.jar") none)).options.authorization
      = "Basic " ++ ("dXNlcjpwYXNzd29yZA==" : String) :=
  (every_request_carries_basic_auth ⟨"u", "dXNlcjpwYXNzd29yZA=="⟩).2.2.2.1
    "repo" "p/f.jar" "local/f.jar" false
    ⟨true, .resp ⟨200, "OK", none⟩, .resp ⟨201, "", none⟩⟩
    (HttpRequest.mk Method.head
      ((⟨"u", "dXNlcjpwYXNzd29yZA=="⟩ : ArtifactoryAPI).getRequestOptions
        (actionFilePath "repo" "p/f.jar") none))
    (by simp [ArtifactoryAPI.uploadFile, ArtifactoryAPI.isPathExists, isPathExistsCallback,
      JsValue.truthy, isRemoteUrl])

end ArtifactorySpec
